import Mathlib

/-!
Verification of the HyperNDVI format-detection / binary-decoding layer
(`NDVIfunctions.py`): the file-size-keyed format registry, the five
layout-specific readers, the axis permutation to the canonical
(height, width, depth) cube, the raw-dump writer, and the NDVI band
arithmetic.

Bytes are modelled as natural numbers (well-formed buffers have every
entry `< 256`); numpy `uint16` assembly is explicit little-endian
arithmetic; `astype(np.uint8)` is truncation `% 256`; numpy float32
arithmetic in the NDVI computation is modelled as exact rational
arithmetic over `ℚ`.
-/

namespace HyperNDVI

/-- Errors raised by the decoding layer: the dispatcher's
`ValueError(f"Unsupported file size: ... bytes")`, numpy's
`np.frombuffer` size error (buffer size not a multiple of element size),
numpy's `np.reshape` size-mismatch `ValueError`, and the tuple-unpack
`ValueError: not enough values to unpack (expected 4, got 3)` the
dispatcher raises on its 87,630,400 branch (line 55 binds four names to
`read_HSC170X_old`'s three return values). -/
inductive DecodeError where
  | unsupportedFileSize (n : Nat)
  | frombufferSizeMismatch
  | reshapeMismatch
  | unpackError
deriving Repr, DecidableEq

/-- A dense 3-dimensional numpy array: shape `(d0, d1, d2)` plus an
element lookup (out-of-range reads default to 0; all stated properties
only depend on in-range entries or hold trivially out of range). -/
structure Arr3 where
  d0 : Nat
  d1 : Nat
  d2 : Nat
  get : Nat → Nat → Nat → Nat

/-- Python slice `l[:k]` where `k` may be a negative int: a negative
stop counts from the end (`len + k`), clamped to 0. -/
def pySliceTo (l : List Nat) (k : Int) : List Nat :=
  if k < 0 then l.take ((l.length : Int) + k).toNat else l.take k.toNat

/-- numpy `np.frombuffer(bytes, dtype=np.uint16)` on a little-endian
host: consecutive byte pairs assembled low byte first. -/
def u16Samples (bytes : List Nat) : List Nat :=
  (List.range (bytes.length / 2)).map
    (fun i => bytes.getD (2 * i) 0 + 256 * bytes.getD (2 * i + 1) 0)

/-- numpy `np.reshape(flat, (a, b, c))` (C order): errors when the
element count does not match, else indexes row-major. -/
def np_reshape3 (flat : List Nat) (a b c : Nat) : Except DecodeError Arr3 :=
  if flat.length = a * b * c then
    Except.ok ⟨a, b, c, fun i j k => flat.getD (i * (b * c) + j * c + k) 0⟩
  else Except.error DecodeError.reshapeMismatch

/-- numpy `arr.transpose(0, 2, 1)`: swap the last two axes, keeping
every element (a strided view, no renumbering). -/
def transpose021 (A : Arr3) : Arr3 :=
  ⟨A.d0, A.d2, A.d1, fun i j k => A.get i k j⟩

/-- The header slice `buffer[:len(buffer) - RAW_len]` the readers
compute (and that `read_HSC180X` / `read_HSC180X_CL` return). -/
def headerOf (buffer : List Nat) (RAW_len : Nat) : List Nat :=
  pySliceTo buffer ((buffer.length : Int) - (RAW_len : Int))

/-- `np.frombuffer(rest, dtype)` for the two dtypes in use: uint16
(little-endian pairs; errors unless the byte count is a multiple of the
2-byte element size) when `sampleBytes = 2`, else uint8 (the bytes
themselves). -/
def frombufferE (sampleBytes : Nat) (rest : List Nat) :
    Except DecodeError (List Nat) :=
  if sampleBytes = 2 then
    if rest.length % 2 = 0 then Except.ok (u16Samples rest)
    else Except.error DecodeError.frombufferSizeMismatch
  else Except.ok rest

/-- The `dat = dat.astype(np.uint8)` truncation step of
`read_HSC170X_old`, applied only when the layout downcasts. -/
def downcastIf (downcast : Bool) (dat : List Nat) : List Nat :=
  if downcast then dat.map (fun v => v % 256) else dat

/-- The shared body of the five `read_*` functions in `NDVIfunctions.py`:
`RAW_len = X*Y*Z*sample_bytes`; `header = buffer[:len(buffer)-RAW_len]`
(Python slice semantics); drop `len(header)` bytes; `np.frombuffer`;
`astype(np.uint8)` truncation when `downcast`; `np.reshape` to
`(Y, Z, X)`. -/
def readCore (X Y Z sampleBytes : Nat) (downcast : Bool) (buffer : List Nat) :
    Except DecodeError Arr3 :=
  (frombufferE sampleBytes
      (buffer.drop (headerOf buffer (X * Y * Z * sampleBytes)).length)).bind
    (fun dat0 => np_reshape3 (downcastIf downcast dat0) Y Z X)

/-- `read_custom`: X=350, Y=300, Z=141, uint8; returns (HSData, Y, X). -/
def read_custom (buffer : List Nat) : Except DecodeError (Arr3 × Nat × Nat) :=
  (readCore 350 300 141 1 false buffer).map (fun HSData => (HSData, 300, 350))

/-- `read_HSC180X_CL`: X=1920, Y=1080, Z=141, uint16; returns
(HSData, header, Y, X). -/
def read_HSC180X_CL (buffer : List Nat) :
    Except DecodeError (Arr3 × List Nat × Nat × Nat) :=
  (readCore 1920 1080 141 2 false buffer).map
    (fun HSData => (HSData, headerOf buffer (1920 * 1080 * 141 * 2), 1080, 1920))

/-- `read_HSC180X`: X=1280, Y=1024, Z=141, uint16; returns
(HSData, header, Y, X). -/
def read_HSC180X (buffer : List Nat) :
    Except DecodeError (Arr3 × List Nat × Nat × Nat) :=
  (readCore 1280 1024 141 2 false buffer).map
    (fun HSData => (HSData, headerOf buffer (1280 * 1024 * 141 * 2), 1024, 1280))

/-- `read_HSC170X_old`: X=640, Y=480, Z=141, uint16 narrowed to uint8 by
`astype(np.uint8)` truncation; returns (HSData, Y, X). -/
def read_HSC170X_old (buffer : List Nat) :
    Except DecodeError (Arr3 × Nat × Nat) :=
  (readCore 640 480 141 2 true buffer).map (fun HSData => (HSData, 480, 640))

/-- `read_HSC170X_new`: X=640, Y=480, Z=141, uint8; returns
(HSData, Y, X). -/
def read_HSC170X_new (buffer : List Nat) :
    Except DecodeError (Arr3 × Nat × Nat) :=
  (readCore 640 480 141 1 false buffer).map (fun HSData => (HSData, 480, 640))

/-- `read_HSD_from_buffer`: dispatch on `len(buffer)` to the five
readers, then return `HSData.transpose(0, 2, 1), Y, X`; any other
length raises `ValueError(f"Unsupported file size: {file_size} bytes")`.
The 87,630,400 branch executes `HSData, header, Y, X =
read_HSC170X_old(buffer)` (line 55): the reader runs to completion and
returns a 3-tuple, after which the 4-name unpacking raises
`ValueError: not enough values to unpack (expected 4, got 3)` — so this
branch never produces a cube. -/
def read_HSD_from_buffer (buffer : List Nat) :
    Except DecodeError (Arr3 × Nat × Nat) :=
  if buffer.length = 370623040 then
    (read_HSC180X buffer).map (fun r => (transpose021 r.1, r.2.2.1, r.2.2.2))
  else if buffer.length = 87630400 then
    (read_HSC170X_old buffer).bind
      (fun _ => Except.error DecodeError.unpackError)
  else if buffer.length = 44315200 then
    (read_HSC170X_new buffer).map (fun r => (transpose021 r.1, r.2.1, r.2.2))
  else if buffer.length = 585755200 then
    (read_HSC180X_CL buffer).map (fun r => (transpose021 r.1, r.2.2.1, r.2.2.2))
  else if buffer.length = 14805000 then
    (read_custom buffer).map (fun r => (transpose021 r.1, r.2.1, r.2.2))
  else Except.error (DecodeError.unsupportedFileSize buffer.length)

/-- The fixed per-camera layout record of §4.1. -/
structure LayoutSpec where
  total_file_size : Nat
  width : Nat
  height : Nat
  depth : Nat
  sample_bytes : Nat
  needs_8bit_downcast : Bool
deriving Repr, DecidableEq

def spec180X : LayoutSpec := ⟨370623040, 1280, 1024, 141, 2, false⟩
def spec170Xold : LayoutSpec := ⟨87630400, 640, 480, 141, 2, true⟩
def spec170Xnew : LayoutSpec := ⟨44315200, 640, 480, 141, 1, false⟩
def spec180XCL : LayoutSpec := ⟨585755200, 1920, 1080, 141, 2, false⟩
def specCustom : LayoutSpec := ⟨14805000, 350, 300, 141, 1, false⟩

/-- The five known layouts, in the dispatch order of
`read_HSD_from_buffer`. -/
def registry : List LayoutSpec :=
  [spec180X, spec170Xold, spec170Xnew, spec180XCL, specCustom]

/-- The FormatRegistry lookup: total buffer length to layout, mirroring
the if-chain of `read_HSD_from_buffer`. -/
def resolve (file_size : Nat) : Option LayoutSpec :=
  if file_size = 370623040 then some spec180X
  else if file_size = 87630400 then some spec170Xold
  else if file_size = 44315200 then some spec170Xnew
  else if file_size = 585755200 then some spec180XCL
  else if file_size = 14805000 then some specCustom
  else none

/-- Decoding with an explicit layout: the reader for the layout's
constants followed by the dispatcher's final `transpose(0, 2, 1)`,
returning (cube, Y, X). -/
def decodeSpec (s : LayoutSpec) (buffer : List Nat) :
    Except DecodeError (Arr3 × Nat × Nat) :=
  (readCore s.width s.height s.depth s.sample_bytes s.needs_8bit_downcast
      buffer).map
    (fun HSData => (transpose021 HSData, s.height, s.width))

/-- The value of flat payload sample number `i`: the byte itself for
1-byte samples, the little-endian byte pair for 2-byte samples,
truncated `% 256` when the layout downcasts. -/
def coreSample (sampleBytes : Nat) (downcast : Bool) (payload : List Nat)
    (i : Nat) : Nat :=
  let v :=
    if sampleBytes = 2 then
      payload.getD (2 * i) 0 + 256 * payload.getD (2 * i + 1) 0
    else payload.getD i 0
  if downcast then v % 256 else v

/-- `coreSample` at a layout's sample width and downcast flag. -/
def flatSample (s : LayoutSpec) (payload : List Nat) (i : Nat) : Nat :=
  coreSample s.sample_bytes s.needs_8bit_downcast payload i

/-- The trailing `width*height*depth*sample_bytes` payload bytes of a
buffer under a layout. -/
def payloadOf (s : LayoutSpec) (buffer : List Nat) : List Nat :=
  buffer.drop
    (buffer.length - s.width * s.height * s.depth * s.sample_bytes)

/-- numpy `arr.tobytes()` for a uint8 array: row-major (C order) flat
byte stream, one byte per element. -/
def tobytes_u8 (A : Arr3) : List Nat :=
  (List.range (A.d0 * A.d1 * A.d2)).map
    (fun n => A.get (n / (A.d1 * A.d2)) (n / A.d2 % A.d1) (n % A.d2) % 256)

/-- numpy `arr.tobytes()` for a uint16 array on a little-endian host:
row-major flat byte stream, two bytes per element, low byte first. -/
def tobytes_u16 (A : Arr3) : List Nat :=
  (List.range (A.d0 * A.d1 * A.d2 * 2)).map
    (fun n =>
      let i := n / 2
      let v := A.get (i / (A.d1 * A.d2)) (i / A.d2 % A.d1) (i % A.d2)
      if n % 2 = 0 then v % 256 else v / 256 % 256)

/-- `write_HSD_to_buffer` for a uint8 cube: `data.transpose(0, 2, 1)`
followed by `data.tobytes()` (the file write itself is I/O glue; the
byte stream written is what matters). -/
def write_HSD_to_buffer_u8 (data : Arr3) : List Nat :=
  tobytes_u8 (transpose021 data)

/-- `write_HSD_to_buffer` for a uint16 cube: `data.transpose(0, 2, 1)`
followed by `data.tobytes()`. -/
def write_HSD_to_buffer_u16 (data : Arr3) : List Nat :=
  tobytes_u16 (transpose021 data)

/-- The error numpy raises for an out-of-range band index in
`hsi_cube[:, :, idx]` (`IndexError: index i is out of bounds for axis 2
with size dim`). -/
inductive NdviError where
  | indexError (i : Int) (dim : Nat)
deriving Repr, DecidableEq

/-- numpy integer indexing along an axis of size `dim`: an index in
`[0, dim)` is used as is, an index in `[-dim, 0)` wraps to `dim + i`,
anything else raises `IndexError`. -/
def npBandIndex (idx : Int) (dim : Nat) : Except NdviError Nat :=
  if 0 ≤ idx ∧ idx < (dim : Int) then Except.ok idx.toNat
  else if -(dim : Int) ≤ idx ∧ idx < 0 then Except.ok ((dim : Int) + idx).toNat
  else Except.error (NdviError.indexError idx dim)

/-- `calculate_ndvi`: select the NIR band (line 280 runs first, so its
index error wins), then the Red band, cast to float and compute
`(nir - red) / (nir + red + 1e-6)` pixelwise; float32 arithmetic is
modelled as exact rational arithmetic (the uint8/uint16 samples widen
into float32 without loss). -/
def calculate_ndvi (hsi_cube : Arr3) (nir_band_idx red_band_idx : Int) :
    Except NdviError (Nat → Nat → ℚ) :=
  (npBandIndex nir_band_idx hsi_cube.d2).bind (fun ni =>
    (npBandIndex red_band_idx hsi_cube.d2).map (fun ri =>
      fun y x =>
        let nir : ℚ := (hsi_cube.get y x ni : ℚ)
        let red : ℚ := (hsi_cube.get y x ri : ℚ)
        (nir - red) / (nir + red + 1 / 1000000)))

/-! Helper lemmas about the list primitives the decoder is built from. -/

theorem getD_drop (l : List Nat) (n i d : Nat) :
    (l.drop n).getD i d = l.getD (n + i) d := by
  rw [List.getD_eq_getElem?_getD, List.getD_eq_getElem?_getD,
    List.getElem?_drop]

theorem getD_range_map (f : Nat → Nat) (n i : Nat) :
    ((List.range n).map f).getD i 0 = if i < n then f i else 0 := by
  rw [List.getD_eq_getElem?_getD, List.getElem?_map]
  by_cases h : i < n
  · rw [List.getElem?_range h]; simp [h]
  · rw [List.getElem?_eq_none (by simpa using Nat.le_of_not_lt h)]
    simp [h]

theorem getD_map_mod (l : List Nat) (i : Nat) :
    (l.map (fun v => v % 256)).getD i 0 = l.getD i 0 % 256 := by
  rw [List.getD_eq_getElem?_getD, List.getD_eq_getElem?_getD,
    List.getElem?_map]
  by_cases h : i < l.length
  · rw [List.getElem?_eq_getElem h]; rfl
  · rw [List.getElem?_eq_none (by omega)]; rfl

theorem getD_out_of_range (l : List Nat) (i d : Nat) (h : l.length ≤ i) :
    l.getD i d = d := by
  rw [List.getD_eq_getElem?_getD, List.getElem?_eq_none h]
  rfl

theorem u16Samples_getD (l : List Nat) (hl : l.length % 2 = 0) (i : Nat) :
    (u16Samples l).getD i 0 =
      l.getD (2 * i) 0 + 256 * l.getD (2 * i + 1) 0 := by
  unfold u16Samples
  rw [getD_range_map]
  by_cases h : i < l.length / 2
  · rw [if_pos h]
  · rw [if_neg h, getD_out_of_range l (2 * i) 0 (by omega),
      getD_out_of_range l (2 * i + 1) 0 (by omega)]

theorem pySliceTo_nonneg (l : List Nat) (k : Int) (h : 0 ≤ k) :
    pySliceTo l k = l.take k.toNat := by
  unfold pySliceTo
  rw [if_neg (by omega)]

theorem headerOf_length (l : List Nat) (R : Nat) (h : R ≤ l.length) :
    (headerOf l R).length = l.length - R := by
  unfold headerOf
  rw [pySliceTo_nonneg _ _ (by omega), List.length_take]
  omega

theorem frombufferE_one (rest : List Nat) :
    frombufferE 1 rest = Except.ok rest := rfl

theorem frombufferE_two (rest : List Nat) (h : rest.length % 2 = 0) :
    frombufferE 2 rest = Except.ok (u16Samples rest) := by
  unfold frombufferE
  rw [if_pos rfl, if_pos h]

theorem downcastIf_length (db : Bool) (l : List Nat) :
    (downcastIf db l).length = l.length := by
  cases db <;> simp [downcastIf]

theorem downcastIf_getD (db : Bool) (l : List Nat) (i : Nat) :
    (downcastIf db l).getD i 0 =
      if db then l.getD i 0 % 256 else l.getD i 0 := by
  cases db
  · rfl
  · show (l.map (fun v => v % 256)).getD i 0 = l.getD i 0 % 256
    exact getD_map_mod l i

/-- Full behaviour of the shared reader body on a buffer at least as
long as the payload: it succeeds with the `(Y, Z, X)` array whose entry
at `(y, z, x)` is flat payload sample number `y*(Z*X) + z*X + x`. -/
theorem readCore_char (X Y Z sb : Nat) (db : Bool) (buffer : List Nat)
    (hsb : sb = 1 ∨ sb = 2) (hlen : X * Y * Z * sb ≤ buffer.length) :
    readCore X Y Z sb db buffer =
      Except.ok ⟨Y, Z, X, fun y z x =>
        coreSample sb db (buffer.drop (buffer.length - X * Y * Z * sb))
          (y * (Z * X) + z * X + x)⟩ := by
  have hdr : buffer.drop (headerOf buffer (X * Y * Z * sb)).length
      = buffer.drop (buffer.length - X * Y * Z * sb) := by
    rw [headerOf_length _ _ hlen]
  have hrest : (buffer.drop (buffer.length - X * Y * Z * sb)).length
      = X * Y * Z * sb := by
    rw [List.length_drop]; omega
  unfold readCore
  rw [hdr]
  rcases hsb with rfl | rfl
  · rw [frombufferE_one]
    show np_reshape3 _ Y Z X = _
    unfold np_reshape3
    rw [if_pos (by rw [downcastIf_length, hrest]; ring)]
    refine congrArg Except.ok ?_
    congr 1
    funext y z x
    rw [downcastIf_getD]
    cases db <;> simp [coreSample]
  · have heven : (buffer.drop (buffer.length - X * Y * Z * 2)).length % 2
        = 0 := by rw [hrest]; omega
    have hsamples : (u16Samples (buffer.drop
        (buffer.length - X * Y * Z * 2))).length = X * Y * Z := by
      unfold u16Samples
      rw [List.length_map, List.length_range, hrest]
      omega
    rw [frombufferE_two _ heven]
    show np_reshape3 _ Y Z X = _
    unfold np_reshape3
    rw [if_pos (by rw [downcastIf_length, hsamples]; ring)]
    refine congrArg Except.ok ?_
    congr 1
    funext y z x
    rw [downcastIf_getD]
    cases db
    · rw [u16Samples_getD _ heven]
      simp [coreSample]
    · rw [u16Samples_getD _ heven]
      simp [coreSample]

/-- `Except.map` evaluated at a success value. -/
theorem except_map_ok {E A B : Type} (f : A → B) (a : A) :
    Except.map (ε := E) f (Except.ok a) = Except.ok (f a) := rfl

theorem except_map_map {E A B C : Type} (f : A → B) (g : B → C)
    (x : Except E A) :
    (x.map f).map g = x.map (fun a => g (f a)) := by
  cases x <;> rfl

theorem decodeSpec_char (s : LayoutSpec) (hs : s ∈ registry)
    (buffer : List Nat) (h : buffer.length = s.total_file_size) :
    decodeSpec s buffer =
      Except.ok (⟨s.height, s.width, s.depth, fun y x z =>
          flatSample s (payloadOf s buffer)
            (y * (s.depth * s.width) + z * s.width + x)⟩,
        s.height, s.width) := by
  have hsb : s.sample_bytes = 1 ∨ s.sample_bytes = 2 := by
    fin_cases hs <;> simp [spec180X, spec170Xold, spec170Xnew, spec180XCL,
      specCustom]
  have hlen : s.width * s.height * s.depth * s.sample_bytes
      ≤ buffer.length := by
    rw [h]; fin_cases hs <;> decide
  unfold decodeSpec
  rw [readCore_char _ _ _ _ _ _ hsb hlen, except_map_ok]
  rfl

/-- The 87,630,400 branch: the reader succeeds on an exact-size buffer
and the dispatcher's 4-name unpacking of its 3-tuple then raises the
`ValueError`, so `read_HSD_from_buffer` never returns a cube there. -/
theorem read_HSD_unpack_170old (buffer : List Nat)
    (h : buffer.length = 87630400) :
    read_HSD_from_buffer buffer = Except.error DecodeError.unpackError := by
  unfold read_HSD_from_buffer read_HSC170X_old
  rw [if_neg (by rw [h]; decide), if_pos h,
    readCore_char 640 480 141 2 true buffer (Or.inr rfl)
      (le_trans (by decide) (le_of_eq h.symm))]
  rfl

theorem read_HSD_eq_decodeSpec (s : LayoutSpec) (hs : s ∈ registry)
    (hne : s ≠ spec170Xold)
    (buffer : List Nat) (h : buffer.length = s.total_file_size) :
    read_HSD_from_buffer buffer = decodeSpec s buffer := by
  simp only [registry, List.mem_cons, List.not_mem_nil, or_false] at hs
  rcases hs with rfl | rfl | rfl | rfl | rfl
  · have h' : buffer.length = 370623040 := h
    unfold read_HSD_from_buffer read_HSC180X
    rw [if_pos h', except_map_map]
    rfl
  · exact absurd rfl hne
  · have h' : buffer.length = 44315200 := h
    unfold read_HSD_from_buffer read_HSC170X_new
    rw [if_neg (by rw [h']; decide), if_neg (by rw [h']; decide),
      if_pos h', except_map_map]
    rfl
  · have h' : buffer.length = 585755200 := h
    unfold read_HSD_from_buffer read_HSC180X_CL
    rw [if_neg (by rw [h']; decide), if_neg (by rw [h']; decide),
      if_neg (by rw [h']; decide), if_pos h', except_map_map]
    rfl
  · have h' : buffer.length = 14805000 := h
    unfold read_HSD_from_buffer read_custom
    rw [if_neg (by rw [h']; decide), if_neg (by rw [h']; decide),
      if_neg (by rw [h']; decide), if_neg (by rw [h']; decide),
      if_pos h', except_map_map]
    rfl

theorem read_HSD_char (s : LayoutSpec) (hs : s ∈ registry)
    (hne : s ≠ spec170Xold)
    (buffer : List Nat) (h : buffer.length = s.total_file_size) :
    read_HSD_from_buffer buffer =
      Except.ok (⟨s.height, s.width, s.depth, fun y x z =>
          flatSample s (payloadOf s buffer)
            (y * (s.depth * s.width) + z * s.width + x)⟩,
        s.height, s.width) := by
  rw [read_HSD_eq_decodeSpec s hs hne buffer h, decodeSpec_char s hs buffer h]

theorem except_map_error {E A B : Type} (f : A → B) (e : E) :
    Except.map f (Except.error e : Except E A) = Except.error e := rfl

theorem resolve_eq_some (n : Nat) (s : LayoutSpec)
    (h : resolve n = some s) : n = s.total_file_size ∧ s ∈ registry := by
  unfold resolve at h
  split_ifs at h with h1 h2 h3 h4 h5
  · exact ⟨(Option.some_inj.mp h) ▸ h1, (Option.some_inj.mp h) ▸ (by decide)⟩
  · exact ⟨(Option.some_inj.mp h) ▸ h2, (Option.some_inj.mp h) ▸ (by decide)⟩
  · exact ⟨(Option.some_inj.mp h) ▸ h3, (Option.some_inj.mp h) ▸ (by decide)⟩
  · exact ⟨(Option.some_inj.mp h) ▸ h4, (Option.some_inj.mp h) ▸ (by decide)⟩
  · exact ⟨(Option.some_inj.mp h) ▸ h5, (Option.some_inj.mp h) ▸ (by decide)⟩

/-- On a buffer strictly shorter than the payload, the reader body never
reports a too-short buffer: the Python slice silently clamps the header
and the failure surfaces later, from `np.frombuffer` or `np.reshape`. -/
theorem readCore_short (X Y Z sb : Nat) (db : Bool) (buffer : List Nat)
    (hsb : sb = 1 ∨ sb = 2)
    (hshort : buffer.length < X * Y * Z * sb) :
    ∃ e, readCore X Y Z sb db buffer = Except.error e ∧
      (e = DecodeError.frombufferSizeMismatch ∨
       e = DecodeError.reshapeMismatch) := by
  have hrlen : (buffer.drop
      (headerOf buffer (X * Y * Z * sb)).length).length ≤ buffer.length := by
    rw [List.length_drop]; omega
  rcases hsb with rfl | rfl
  · refine ⟨DecodeError.reshapeMismatch, ?_, Or.inr rfl⟩
    have hc : ¬ ((downcastIf db (buffer.drop
        (headerOf buffer (X * Y * Z * 1)).length)).length = Y * Z * X) := by
      rw [downcastIf_length, List.length_drop]
      have hcomm : Y * Z * X = X * Y * Z * 1 := by ring
      omega
    unfold readCore
    rw [frombufferE_one]
    show np_reshape3 _ Y Z X = _
    unfold np_reshape3
    rw [if_neg hc]
  · by_cases hpar : (buffer.drop
        (headerOf buffer (X * Y * Z * 2)).length).length % 2 = 0
    · refine ⟨DecodeError.reshapeMismatch, ?_, Or.inr rfl⟩
      have hc : ¬ ((downcastIf db (u16Samples (buffer.drop
          (headerOf buffer (X * Y * Z * 2)).length))).length = Y * Z * X) := by
        rw [downcastIf_length]
        unfold u16Samples
        rw [List.length_map, List.length_range, List.length_drop]
        have hcomm : X * Y * Z * 2 = Y * Z * X * 2 := by ring
        omega
      unfold readCore
      rw [frombufferE_two _ hpar]
      show np_reshape3 _ Y Z X = _
      unfold np_reshape3
      rw [if_neg hc]
    · refine ⟨DecodeError.frombufferSizeMismatch, ?_, Or.inl rfl⟩
      unfold readCore frombufferE
      rw [if_pos rfl, if_neg hpar]
      rfl

/-! Per-layout evaluation lemmas for the flat-sample and payload
functions (proved at fully variable arguments so later instantiations
are pure substitutions). -/

theorem flatSample_custom (p : List Nat) (i : Nat) :
    flatSample specCustom p i = p.getD i 0 := rfl

theorem flatSample_170new (p : List Nat) (i : Nat) :
    flatSample spec170Xnew p i = p.getD i 0 := rfl

theorem flatSample_170old (p : List Nat) (i : Nat) :
    flatSample spec170Xold p i =
      (p.getD (2 * i) 0 + 256 * p.getD (2 * i + 1) 0) % 256 := rfl

theorem flatSample_180X (p : List Nat) (i : Nat) :
    flatSample spec180X p i =
      p.getD (2 * i) 0 + 256 * p.getD (2 * i + 1) 0 := rfl

theorem flatSample_180XCL (p : List Nat) (i : Nat) :
    flatSample spec180XCL p i =
      p.getD (2 * i) 0 + 256 * p.getD (2 * i + 1) 0 := rfl

theorem payloadOf_custom (buffer : List Nat) :
    payloadOf specCustom buffer =
      buffer.drop (buffer.length - 350 * 300 * 141 * 1) := rfl

theorem payloadOf_170new (buffer : List Nat) :
    payloadOf spec170Xnew buffer =
      buffer.drop (buffer.length - 640 * 480 * 141 * 1) := rfl

theorem payloadOf_170old (buffer : List Nat) :
    payloadOf spec170Xold buffer =
      buffer.drop (buffer.length - 640 * 480 * 141 * 2) := rfl

theorem write_u8_length (A : Arr3) :
    (write_HSD_to_buffer_u8 A).length = A.d0 * A.d2 * A.d1 := by
  unfold write_HSD_to_buffer_u8 tobytes_u8 transpose021
  rw [List.length_map, List.length_range]

theorem write_u16_length (A : Arr3) :
    (write_HSD_to_buffer_u16 A).length = A.d0 * A.d2 * A.d1 * 2 := by
  unfold write_HSD_to_buffer_u16 tobytes_u16 transpose021
  rw [List.length_map, List.length_range]

theorem tobytes_u8_getD (A : Arr3) (n : Nat) :
    (tobytes_u8 A).getD n 0 =
      if n < A.d0 * A.d1 * A.d2
      then A.get (n / (A.d1 * A.d2)) (n / A.d2 % A.d1) (n % A.d2) % 256
      else 0 := by
  unfold tobytes_u8
  rw [getD_range_map]

theorem coreSample_170old (p : List Nat) (i : Nat) :
    coreSample 2 true p i =
      (p.getD (2 * i) 0 + 256 * p.getD (2 * i + 1) 0) % 256 := rfl

/-- Pointwise cube lookup through the full decoder (for the four
layouts whose dispatch branch returns a cube): entry (y, x, z) of the
decoded cube is flat payload sample number
`y*(depth*width) + z*width + x`. -/
theorem read_HSD_get (s : LayoutSpec) (hs : s ∈ registry)
    (hne : s ≠ spec170Xold)
    (buffer : List Nat) (h : buffer.length = s.total_file_size)
    (y x z : Nat) :
    (read_HSD_from_buffer buffer).map (fun r => r.1.get y x z) =
      Except.ok (flatSample s (payloadOf s buffer)
        (y * (s.depth * s.width) + z * s.width + x)) := by
  rw [read_HSD_char s hs hne buffer h, except_map_ok]

theorem resolve_none_sizes (L : Nat) (h : resolve L = none) :
    L ≠ 370623040 ∧ L ≠ 87630400 ∧ L ≠ 44315200 ∧ L ≠ 585755200 ∧
      L ≠ 14805000 := by
  unfold resolve at h
  split_ifs at h with h1 h2 h3 h4 h5
  exact ⟨h1, h2, h3, h4, h5⟩

/-- Re-decoding a uint16 raw dump whose byte length matches no registry
entry stops with `UnsupportedFormat` carrying that length. -/
theorem read_HSD_write_u16_unsupported (A : Arr3) (L : Nat)
    (hdim : A.d0 * A.d2 * A.d1 * 2 = L) (hres : resolve L = none) :
    read_HSD_from_buffer (write_HSD_to_buffer_u16 A) =
      Except.error (DecodeError.unsupportedFileSize L) := by
  have hlen : (write_HSD_to_buffer_u16 A).length = L := by
    rw [write_u16_length, hdim]
  obtain ⟨n1, n2, n3, n4, n5⟩ := resolve_none_sizes L hres
  unfold read_HSD_from_buffer
  rewrite [hlen]
  rw [if_neg n1, if_neg n2, if_neg n3, if_neg n4, if_neg n5]

/-- Re-decoding a uint8 raw dump whose byte length matches no registry
entry stops with `UnsupportedFormat` carrying that length. -/
theorem read_HSD_write_u8_unsupported (A : Arr3) (L : Nat)
    (hdim : A.d0 * A.d2 * A.d1 = L) (hres : resolve L = none) :
    read_HSD_from_buffer (write_HSD_to_buffer_u8 A) =
      Except.error (DecodeError.unsupportedFileSize L) := by
  have hlen : (write_HSD_to_buffer_u8 A).length = L := by
    rw [write_u8_length, hdim]
  obtain ⟨n1, n2, n3, n4, n5⟩ := resolve_none_sizes L hres
  unfold read_HSD_from_buffer
  rewrite [hlen]
  rw [if_neg n1, if_neg n2, if_neg n3, if_neg n4, if_neg n5]

/-- C1: the registry resolves each of the five §4.1 sizes to exactly
the tabulated layout, decoding on the four sound branches runs exactly
the resolved layout's reader, and any unsupported length is rejected
with `UnsupportedFormat` carrying the offending length; but the
87,630,400 branch, instead of decoding with its selected layout, always
raises the dispatcher's tuple-unpack `ValueError` — the divergence that
makes the claim a code bug. -/
theorem C1_exact_discriminant (buffer : List Nat) :
    (resolve 370623040 = some spec180X ∧
     resolve 87630400 = some spec170Xold ∧
     resolve 44315200 = some spec170Xnew ∧
     resolve 585755200 = some spec180XCL ∧
     resolve 14805000 = some specCustom) ∧
    (∀ s, resolve buffer.length = some s →
      s ∈ registry ∧ buffer.length = s.total_file_size ∧
      (s ≠ spec170Xold →
        read_HSD_from_buffer buffer = decodeSpec s buffer) ∧
      (s = spec170Xold →
        read_HSD_from_buffer buffer =
          Except.error DecodeError.unpackError)) ∧
    ((∀ s ∈ registry, buffer.length ≠ s.total_file_size) →
      resolve buffer.length = none ∧
      read_HSD_from_buffer buffer =
        Except.error (DecodeError.unsupportedFileSize buffer.length)) := by
  refine ⟨⟨rfl, rfl, rfl, rfl, rfl⟩, ?_, ?_⟩
  · intro s hres
    obtain ⟨hlen, hmem⟩ := resolve_eq_some buffer.length s hres
    refine ⟨hmem, hlen, fun hne =>
      read_HSD_eq_decodeSpec s hmem hne buffer hlen, fun heq => ?_⟩
    subst heq
    exact read_HSD_unpack_170old buffer hlen
  · intro hall
    have h1 : buffer.length ≠ 370623040 := hall spec180X (by decide)
    have h2 : buffer.length ≠ 87630400 := hall spec170Xold (by decide)
    have h3 : buffer.length ≠ 44315200 := hall spec170Xnew (by decide)
    have h4 : buffer.length ≠ 585755200 := hall spec180XCL (by decide)
    have h5 : buffer.length ≠ 14805000 := hall specCustom (by decide)
    constructor
    · unfold resolve
      rw [if_neg h1, if_neg h2, if_neg h3, if_neg h4, if_neg h5]
    · unfold read_HSD_from_buffer
      rw [if_neg h1, if_neg h2, if_neg h3, if_neg h4, if_neg h5]

/-- Witness for C1 at three concrete buffers: a supported
14,805,000-byte buffer dispatches to the custom layout, a supported
87,630,400-byte buffer hits the tuple-unpack ValueError, and a 1-byte
buffer is rejected with the offending length. -/
theorem C1_exact_discriminant_witness :
    resolve 14805000 = some specCustom ∧
    read_HSD_from_buffer (List.replicate 14805000 0) =
      decodeSpec specCustom (List.replicate 14805000 0) ∧
    read_HSD_from_buffer (List.replicate 87630400 0) =
      Except.error DecodeError.unpackError ∧
    resolve 1 = none ∧
    read_HSD_from_buffer [0] =
      Except.error (DecodeError.unsupportedFileSize 1) := by
  have hrep := C1_exact_discriminant (List.replicate 14805000 0)
  have hunp := C1_exact_discriminant (List.replicate 87630400 0)
  have hbad := (C1_exact_discriminant [0]).2.2 (by decide)
  have hres1 : resolve (List.replicate 14805000 0).length
      = some specCustom := by
    rw [List.length_replicate]
    exact hrep.1.2.2.2.2
  have hres2 : resolve (List.replicate 87630400 0).length
      = some spec170Xold := by
    rw [List.length_replicate]
    exact hunp.1.2.1
  exact ⟨hrep.1.2.2.2.2, (hrep.2.1 specCustom hres1).2.2.1 (by decide),
    (hunp.2.1 spec170Xold hres2).2.2.2 rfl, hbad.1, hbad.2⟩

/-- C3: on the four sound dispatch branches, decoding a buffer of
exactly the layout's `total_file_size` yields a cube of shape
(height, width, depth) with element count `width*height*depth` plus the
scalars `height` and `width`; on the 87,630,400-byte branch decoding
raises the tuple-unpack `ValueError` and returns no cube at all — the
divergence that makes the claim a code bug. -/
theorem C3_shape_invariant (s : LayoutSpec) (hs : s ∈ registry)
    (buffer : List Nat) (h : buffer.length = s.total_file_size) :
    (s ≠ spec170Xold →
      (read_HSD_from_buffer buffer).map
          (fun r => ((r.1.d0, r.1.d1, r.1.d2), r.2.1, r.2.2)) =
        Except.ok ((s.height, s.width, s.depth), s.height, s.width) ∧
      (read_HSD_from_buffer buffer).map
          (fun r => r.1.d0 * r.1.d1 * r.1.d2) =
        Except.ok (s.width * s.height * s.depth)) ∧
    (s = spec170Xold →
      read_HSD_from_buffer buffer =
        Except.error DecodeError.unpackError) := by
  constructor
  · intro hne
    rw [read_HSD_char s hs hne buffer h]
    constructor
    · rfl
    · rw [except_map_ok]
      refine congrArg Except.ok ?_
      show s.height * s.width * s.depth = s.width * s.height * s.depth
      ring
  · intro heq
    subst heq
    exact read_HSD_unpack_170old buffer h

/-- Witness for C3: the all-zero 14,805,000-byte buffer decodes to a
(300, 350, 141) cube, and the all-zero 87,630,400-byte buffer makes the
dispatcher raise the tuple-unpack error. -/
theorem C3_shape_invariant_witness :
    ((read_HSD_from_buffer (List.replicate 14805000 0)).map
        (fun r => ((r.1.d0, r.1.d1, r.1.d2), r.2.1, r.2.2)) =
      Except.ok ((300, 350, 141), 300, 350)) ∧
    ((read_HSD_from_buffer (List.replicate 14805000 0)).map
        (fun r => r.1.d0 * r.1.d1 * r.1.d2) =
      Except.ok (350 * 300 * 141)) ∧
    read_HSD_from_buffer (List.replicate 87630400 0) =
      Except.error DecodeError.unpackError := by
  have h1 := (C3_shape_invariant specCustom (by decide)
    (List.replicate 14805000 0)
    (by rw [List.length_replicate]; rfl)).1 (by decide)
  have h2 := (C3_shape_invariant spec170Xold (by decide)
    (List.replicate 87630400 0)
    (by rw [List.length_replicate]; rfl)).2 rfl
  exact ⟨h1.1, h1.2, h2⟩

/-- C2 counterexample: on a concrete supported buffer (byte `j` equals
`j % 256`, custom 14,805,000-byte layout, header length 0) the cube
entry at (h, w, d) = (0, 0, 1) is 94, while the claim's flat index
`d*(height*width) + h*width + w = 105000` holds byte 40: the cube entry
is NOT flat payload sample number `d*(height*width) + h*width + w`. -/
theorem C2_counterexample :
    (read_HSD_from_buffer ((List.range 14805000).map (fun j => j % 256))).map
        (fun r => r.1.get 0 0 1) = Except.ok 94 ∧
    ((List.range 14805000).map (fun j => j % 256)).getD
        (1 * (300 * 350) + 0 * 350 + 0) 0 = 40 ∧
    (94 : Nat) ≠ 40 := by
  refine ⟨?_, ?_, by decide⟩
  · rewrite [read_HSD_get specCustom (by decide) (by decide) _
      (by rw [List.length_map, List.length_range]; rfl) 0 0 1]
    refine congrArg Except.ok ?_
    rewrite [flatSample_custom, payloadOf_custom, List.length_map,
      List.length_range]
    have hsub : 14805000 - 350 * 300 * 141 * 1 = 0 := by norm_num
    have hidx : 0 * (specCustom.depth * specCustom.width)
        + 1 * specCustom.width + 0 = 350 := by
      simp only [specCustom]
    rewrite [hsub, List.drop_zero, hidx, getD_range_map,
      if_pos (by norm_num)]
    norm_num
  · have hidx : 1 * (300 * 350) + 0 * 350 + 0 = 105000 := by norm_num
    rewrite [hidx, getD_range_map, if_pos (by norm_num)]
    norm_num

/-- C2 amended: for the four layouts whose dispatch branch returns a
cube (all but the 87,630,400-byte one, which aborts on the dispatcher's
tuple-unpack bug), the storage-native order is (height, depth, width) —
width varies fastest, then band, then row — and the final
`transpose(0, 2, 1)` preserves element identity, so the returned cube
at (h, w, d) equals flat payload sample number
`h*(depth*width) + d*width + w` (not `d*(height*width) + h*width + w`). -/
theorem C2_element_identity_amended (s : LayoutSpec) (hs : s ∈ registry)
    (hne : s ≠ spec170Xold)
    (buffer : List Nat) (hbuf : buffer.length = s.total_file_size)
    (h w d : Nat) :
    (read_HSD_from_buffer buffer).map (fun r => r.1.get h w d) =
      Except.ok (flatSample s (payloadOf s buffer)
        (h * (s.depth * s.width) + d * s.width + w)) :=
  read_HSD_get s hs hne buffer hbuf h w d

/-- Witness for the amended C2 on a concrete all-zero buffer. -/
theorem C2_element_identity_amended_witness :
    (read_HSD_from_buffer (List.replicate 14805000 0)).map
        (fun r => r.1.get 0 0 0) = Except.ok 0 := by
  rewrite [C2_element_identity_amended specCustom (by decide) (by decide)
    (List.replicate 14805000 0) (by rw [List.length_replicate]; rfl) 0 0 0]
  refine congrArg Except.ok ?_
  rewrite [flatSample_custom, payloadOf_custom, List.length_replicate]
  have hsub : 14805000 - 350 * 300 * 141 * 1 = 0 := by norm_num
  rewrite [hsub, List.drop_zero, List.getD_eq_getElem?_getD,
    List.getElem?_replicate, if_pos (by simp [specCustom])]
  rfl

/-- C4: in the 87,630,400-byte layout `read_HSC170X_old` — the reader
the claim cites — assembles every 2-byte sample from the payload bytes
little-endian (low byte first) and narrows it to 8 bits by truncation
`% 256`: low byte 0x34 and high byte 0x12 (the LE encoding of sample
0x1234) decode to 0x34, not 0x12 and not a scaled or clamped value.
(The dispatcher's tuple-unpack bug, see C1/C3, raises only after this
reader has returned, so the conversion is stated of the reader.) -/
theorem C4_downcast_truncation (buffer : List Nat)
    (hbuf : buffer.length = 87630400) (y z x : Nat) :
    ((read_HSC170X_old buffer).map (fun r => r.1.get y z x) =
      Except.ok
        (((payloadOf spec170Xold buffer).getD
            (2 * (y * (141 * 640) + z * 640 + x)) 0 +
          256 * (payloadOf spec170Xold buffer).getD
            (2 * (y * (141 * 640) + z * 640 + x) + 1) 0) % 256)) ∧
    ((payloadOf spec170Xold buffer).getD
          (2 * (y * (141 * 640) + z * 640 + x)) 0 = 0x34 →
      (payloadOf spec170Xold buffer).getD
          (2 * (y * (141 * 640) + z * 640 + x) + 1) 0 = 0x12 →
      (read_HSC170X_old buffer).map (fun r => r.1.get y z x) =
        Except.ok 0x34) := by
  have hget : (read_HSC170X_old buffer).map (fun r => r.1.get y z x) =
      Except.ok (coreSample 2 true
        (buffer.drop (buffer.length - 640 * 480 * 141 * 2))
        (y * (141 * 640) + z * 640 + x)) := by
    unfold read_HSC170X_old
    rw [readCore_char 640 480 141 2 true buffer (Or.inr rfl)
        (le_trans (by decide) (le_of_eq hbuf.symm)),
      except_map_ok, except_map_ok]
  rewrite [coreSample_170old, ← payloadOf_170old] at hget
  refine ⟨hget, fun hb0 hb1 => ?_⟩
  rewrite [hget, hb0, hb1]
  rfl

/-- Witness for C4: a concrete 87,630,400-byte buffer whose first
payload sample has low byte 0x34 and high byte 0x12; the reader decodes
that sample to 0x34. -/
theorem C4_downcast_truncation_witness :
    (read_HSC170X_old ((List.range 87630400).map (fun j =>
        if j = 1000000 then 0x34 else if j = 1000001 then 0x12 else 0))).map
      (fun r => r.1.get 0 0 0) = Except.ok 0x34 := by
  have hlen : ((List.range 87630400).map (fun j =>
      if j = 1000000 then 0x34 else if j = 1000001 then 0x12 else 0)).length
      = 87630400 := by
    rw [List.length_map, List.length_range]
  have hp : ∀ i : Nat,
      (payloadOf spec170Xold ((List.range 87630400).map (fun j =>
        if j = 1000000 then 0x34 else if j = 1000001 then 0x12 else 0))).getD
        i 0
      = if 1000000 + i < 87630400
        then (if 1000000 + i = 1000000 then 0x34
              else if 1000000 + i = 1000001 then 0x12 else 0) else 0 := by
    intro i
    rewrite [payloadOf_170old, hlen]
    have hsub : 87630400 - 640 * 480 * 141 * 2 = 1000000 := by norm_num
    rewrite [hsub, getD_drop, getD_range_map]
    rfl
  refine (C4_downcast_truncation _ hlen 0 0 0).2 ?_ ?_
  · rewrite [hp]
    norm_num
  · rewrite [hp]
    norm_num

/-- C5 counterexample: at the supported size 87,630,400 decoding yields
no cube at all — the all-zero buffer of that exact size makes the
dispatcher raise its tuple-unpack `ValueError` — so buffers of that
supported size cannot decode to bit-identical cubes. -/
theorem C5_counterexample :
    read_HSD_from_buffer (List.replicate 87630400 0) =
      Except.error DecodeError.unpackError :=
  read_HSD_unpack_170old _ (by rw [List.length_replicate])

/-- C5 amended: two buffers of the same supported size whose trailing
`width*height*depth*sample_bytes` payload bytes agree produce the
identical decode result whatever their leading header bytes: for the
four layouts that return a cube the cubes are bit-identical, and for
the 87,630,400-byte layout both decodes raise the same tuple-unpack
error, so the output still depends only on the payload. -/
theorem C5_header_agnostic (s : LayoutSpec) (hs : s ∈ registry)
    (b1 b2 : List Nat) (h1 : b1.length = s.total_file_size)
    (h2 : b2.length = s.total_file_size)
    (hp : payloadOf s b1 = payloadOf s b2) :
    read_HSD_from_buffer b1 = read_HSD_from_buffer b2 := by
  by_cases hne : s = spec170Xold
  · subst hne
    rw [read_HSD_unpack_170old b1 h1, read_HSD_unpack_170old b2 h2]
  · rw [read_HSD_char s hs hne b1 h1, read_HSD_char s hs hne b2 h2, hp]

/-- Witness for C5: an all-zero 44,315,200-byte buffer and one whose
1,000,000 header bytes are all 1 (payloads both all-zero) decode
identically. -/
theorem C5_header_agnostic_witness :
    read_HSD_from_buffer (List.replicate 44315200 0) =
      read_HSD_from_buffer ((List.range 44315200).map
        (fun j => if j < 1000000 then 1 else 0)) := by
  refine C5_header_agnostic spec170Xnew (by decide) _ _
    (by rw [List.length_replicate]; rfl)
    (by rw [List.length_map, List.length_range]; rfl) ?_
  rewrite [payloadOf_170new, payloadOf_170new, List.length_replicate,
    List.length_map, List.length_range]
  have hsub : 44315200 - 640 * 480 * 141 * 1 = 1000000 := by norm_num
  rewrite [hsub]
  refine List.ext_getElem? (fun i => ?_)
  rewrite [List.getElem?_drop, List.getElem?_drop, List.getElem?_map,
    List.getElem?_replicate]
  by_cases hi : 1000000 + i < 44315200
  · rewrite [if_pos hi, List.getElem?_range hi]
    show some 0 = some (if 1000000 + i < 1000000 then 1 else 0)
    rewrite [if_neg (by omega)]
    rfl
  · rewrite [if_neg hi,
      List.getElem?_eq_none (by simpa using Nat.le_of_not_lt hi)]
    rfl

/-- C6 counterexample: decoding an all-zero 370,623,040-byte buffer
(HSC180X layout, 1,000,000-byte header) and writing the cube through the
raw-dump writer produces a headerless 369,623,040-byte stream, which
re-decoding rejects as an unsupported file size: the write/read
round-trip fails for this supported layout. -/
theorem C6_counterexample :
    (read_HSD_from_buffer (List.replicate 370623040 0)).map
        (fun r => read_HSD_from_buffer (write_HSD_to_buffer_u16 r.1)) =
      Except.ok (Except.error (DecodeError.unsupportedFileSize 369623040)) := by
  rewrite [read_HSD_char spec180X (by decide) (by decide) _
    (by rw [List.length_replicate]; rfl), except_map_ok]
  refine congrArg Except.ok
    (read_HSD_write_u16_unsupported _ 369623040 ?_ rfl)
  norm_num [spec180X]

/-- C6 amended: the raw-dump writer emits only the payload (no header),
so decode-write-redecode reproduces the decode result exactly for the
14,805,000-byte custom layout (header length 0); for the 370,623,040-,
44,315,200- and 585,755,200-byte layouts the written stream's
payload-only length (369,623,040 / 43,315,200 / 584,755,200 bytes)
matches no registry entry and re-decoding signals `UnsupportedFormat`;
and for the 87,630,400-byte layout decoding itself aborts with the
dispatcher's tuple-unpack `ValueError`, so no cube is ever produced to
round-trip. -/
theorem C6_roundtrip_amended (buffer : List Nat)
    (hb : ∀ b ∈ buffer, b < 256) :
    (buffer.length = 14805000 →
      (read_HSD_from_buffer buffer).map
          (fun r => read_HSD_from_buffer (write_HSD_to_buffer_u8 r.1)) =
        Except.ok (read_HSD_from_buffer buffer)) ∧
    (buffer.length = 370623040 →
      (read_HSD_from_buffer buffer).map
          (fun r => read_HSD_from_buffer (write_HSD_to_buffer_u16 r.1)) =
        Except.ok (Except.error
          (DecodeError.unsupportedFileSize 369623040))) ∧
    (buffer.length = 44315200 →
      (read_HSD_from_buffer buffer).map
          (fun r => read_HSD_from_buffer (write_HSD_to_buffer_u8 r.1)) =
        Except.ok (Except.error
          (DecodeError.unsupportedFileSize 43315200))) ∧
    (buffer.length = 585755200 →
      (read_HSD_from_buffer buffer).map
          (fun r => read_HSD_from_buffer (write_HSD_to_buffer_u16 r.1)) =
        Except.ok (Except.error
          (DecodeError.unsupportedFileSize 584755200))) ∧
    (buffer.length = 87630400 →
      read_HSD_from_buffer buffer =
        Except.error DecodeError.unpackError) := by
  refine ⟨fun h => ?_, fun h => ?_, fun h => ?_, fun h => ?_,
    fun h => read_HSD_unpack_170old buffer h⟩
  · have hpay : payloadOf specCustom buffer = buffer := by
      rw [payloadOf_custom, h]
      norm_num
    rw [read_HSD_char specCustom (by decide) (by decide) buffer h,
      except_map_ok, hpay]
    simp only [flatSample_custom]
    simp only [specCustom]
    refine congrArg Except.ok ?_
    have hwlen : (write_HSD_to_buffer_u8 (⟨300, 350, 141, fun y x z =>
        buffer.getD (y * (141 * 350) + z * 350 + x) 0⟩ : Arr3)).length
        = 14805000 := by
      rw [write_u8_length]
      norm_num
    have hkey : ∀ n : Nat, (write_HSD_to_buffer_u8 (⟨300, 350, 141,
        fun y x z => buffer.getD (y * (141 * 350) + z * 350 + x) 0⟩ :
          Arr3)).getD n 0 = buffer.getD n 0 := by
      intro n
      show (tobytes_u8 (transpose021 _)).getD n 0 = _
      rw [tobytes_u8_getD]
      simp only [transpose021]
      by_cases hn : n < 300 * 141 * 350
      · rw [if_pos hn]
        have hidx : n / (141 * 350) * (141 * 350) + n / 350 % 141 * 350
            + n % 350 = n := by omega
        rw [hidx]
        have hn' : n < buffer.length := by omega
        rw [List.getD_eq_getElem?_getD, List.getElem?_eq_getElem hn',
          Option.getD_some]
        exact Nat.mod_eq_of_lt (hb _ (List.getElem_mem hn'))
      · rw [if_neg hn]
        rw [getD_out_of_range buffer n 0 (by omega)]
    rewrite [read_HSD_char specCustom (by decide) (by decide) _ hwlen]
    simp only [flatSample_custom]
    have hpay2 : payloadOf specCustom (write_HSD_to_buffer_u8 (⟨300, 350,
        141, fun y x z => buffer.getD (y * (141 * 350) + z * 350 + x) 0⟩ :
          Arr3))
        = write_HSD_to_buffer_u8 (⟨300, 350, 141,
        fun y x z => buffer.getD (y * (141 * 350) + z * 350 + x) 0⟩ :
          Arr3) := by
      rw [payloadOf_custom, hwlen]
      norm_num
    rewrite [hpay2]
    simp only [specCustom]
    refine congrArg Except.ok (Prod.ext ?_ rfl)
    show (⟨300, 350, 141, _⟩ : Arr3) = (⟨300, 350, 141, _⟩ : Arr3)
    rw [Arr3.mk.injEq]
    refine ⟨rfl, rfl, rfl, ?_⟩
    funext y x z
    exact hkey _
  · rw [read_HSD_char spec180X (by decide) (by decide) buffer h,
      except_map_ok]
    refine congrArg Except.ok
      (read_HSD_write_u16_unsupported _ 369623040 ?_ rfl)
    norm_num [spec180X]
  · rw [read_HSD_char spec170Xnew (by decide) (by decide) buffer h,
      except_map_ok]
    refine congrArg Except.ok
      (read_HSD_write_u8_unsupported _ 43315200 ?_ rfl)
    norm_num [spec170Xnew]
  · rw [read_HSD_char spec180XCL (by decide) (by decide) buffer h,
      except_map_ok]
    refine congrArg Except.ok
      (read_HSD_write_u16_unsupported _ 584755200 ?_ rfl)
    norm_num [spec180XCL]

/-- Witness for the amended C6 at all-zero buffers of all five
supported sizes. -/
theorem C6_roundtrip_amended_witness :
    ((read_HSD_from_buffer (List.replicate 14805000 0)).map
        (fun r => read_HSD_from_buffer (write_HSD_to_buffer_u8 r.1)) =
      Except.ok (read_HSD_from_buffer (List.replicate 14805000 0))) ∧
    ((read_HSD_from_buffer (List.replicate 370623040 0)).map
        (fun r => read_HSD_from_buffer (write_HSD_to_buffer_u16 r.1)) =
      Except.ok (Except.error
        (DecodeError.unsupportedFileSize 369623040))) ∧
    ((read_HSD_from_buffer (List.replicate 44315200 0)).map
        (fun r => read_HSD_from_buffer (write_HSD_to_buffer_u8 r.1)) =
      Except.ok (Except.error
        (DecodeError.unsupportedFileSize 43315200))) ∧
    ((read_HSD_from_buffer (List.replicate 585755200 0)).map
        (fun r => read_HSD_from_buffer (write_HSD_to_buffer_u16 r.1)) =
      Except.ok (Except.error
        (DecodeError.unsupportedFileSize 584755200))) ∧
    read_HSD_from_buffer (List.replicate 87630400 0) =
      Except.error DecodeError.unpackError := by
  have hrep : ∀ n : Nat, ∀ b ∈ List.replicate n 0, b < 256 := by
    intro n b hbm
    rw [List.eq_of_mem_replicate hbm]
    norm_num
  exact ⟨(C6_roundtrip_amended _ (hrep _)).1 (by rw [List.length_replicate]),
    (C6_roundtrip_amended _ (hrep _)).2.1 (by rw [List.length_replicate]),
    (C6_roundtrip_amended _ (hrep _)).2.2.1 (by rw [List.length_replicate]),
    (C6_roundtrip_amended _ (hrep _)).2.2.2.1
      (by rw [List.length_replicate]),
    (C6_roundtrip_amended _ (hrep _)).2.2.2.2
      (by rw [List.length_replicate])⟩

/-- C7: for in-range band indices the NDVI computation returns the
raster (NIR - Red)/(NIR + Red + 1e-6) pixelwise (float32 modelled as
exact rationals, into which the uint8/uint16 samples widen losslessly);
a pixel with NIR = Red = 0 yields exactly 0 — not NaN and not
infinite — and no clamping to [-1, 1] is applied. -/
theorem C7_ndvi_formula (cube : Arr3) (ni ri : Int)
    (hn0 : 0 ≤ ni) (hn1 : ni < (cube.d2 : Int))
    (hr0 : 0 ≤ ri) (hr1 : ri < (cube.d2 : Int)) :
    calculate_ndvi cube ni ri =
      Except.ok (fun y x =>
        ((cube.get y x ni.toNat : ℚ) - (cube.get y x ri.toNat : ℚ)) /
          ((cube.get y x ni.toNat : ℚ) + (cube.get y x ri.toNat : ℚ)
            + 1 / 1000000)) ∧
    (∀ y x, cube.get y x ni.toNat = 0 → cube.get y x ri.toNat = 0 →
      ((cube.get y x ni.toNat : ℚ) - (cube.get y x ri.toNat : ℚ)) /
          ((cube.get y x ni.toNat : ℚ) + (cube.get y x ri.toNat : ℚ)
            + 1 / 1000000) = 0) := by
  constructor
  · unfold calculate_ndvi npBandIndex
    rw [if_pos ⟨hn0, hn1⟩, if_pos ⟨hr0, hr1⟩]
    rfl
  · intro y x hnz hrz
    rw [hnz, hrz]
    norm_num

/-- Witness for C7 on the spec example cube: 2×2 pixels, 2 bands,
pixel (0,0) holds NIR=200 (band 1) and Red=100 (band 0), all other
pixels zero in both bands. -/
theorem C7_ndvi_formula_witness :
    calculate_ndvi (⟨2, 2, 2, fun y x z =>
        if y = 0 ∧ x = 0 then (if z = 1 then 200 else 100) else 0⟩ : Arr3)
      1 0 =
      Except.ok (fun y x =>
        (((⟨2, 2, 2, fun y x z =>
            if y = 0 ∧ x = 0 then (if z = 1 then 200 else 100) else 0⟩ :
              Arr3).get y x (1 : Int).toNat : ℚ) -
          ((⟨2, 2, 2, fun y x z =>
            if y = 0 ∧ x = 0 then (if z = 1 then 200 else 100) else 0⟩ :
              Arr3).get y x (0 : Int).toNat : ℚ)) /
          (((⟨2, 2, 2, fun y x z =>
            if y = 0 ∧ x = 0 then (if z = 1 then 200 else 100) else 0⟩ :
              Arr3).get y x (1 : Int).toNat : ℚ) +
           ((⟨2, 2, 2, fun y x z =>
            if y = 0 ∧ x = 0 then (if z = 1 then 200 else 100) else 0⟩ :
              Arr3).get y x (0 : Int).toNat : ℚ)
            + 1 / 1000000)) ∧
    (∀ y x,
      (⟨2, 2, 2, fun y x z =>
          if y = 0 ∧ x = 0 then (if z = 1 then 200 else 100) else 0⟩ :
            Arr3).get y x (1 : Int).toNat = 0 →
      (⟨2, 2, 2, fun y x z =>
          if y = 0 ∧ x = 0 then (if z = 1 then 200 else 100) else 0⟩ :
            Arr3).get y x (0 : Int).toNat = 0 →
      (((⟨2, 2, 2, fun y x z =>
          if y = 0 ∧ x = 0 then (if z = 1 then 200 else 100) else 0⟩ :
            Arr3).get y x (1 : Int).toNat : ℚ) -
        ((⟨2, 2, 2, fun y x z =>
          if y = 0 ∧ x = 0 then (if z = 1 then 200 else 100) else 0⟩ :
            Arr3).get y x (0 : Int).toNat : ℚ)) /
          (((⟨2, 2, 2, fun y x z =>
            if y = 0 ∧ x = 0 then (if z = 1 then 200 else 100) else 0⟩ :
              Arr3).get y x (1 : Int).toNat : ℚ) +
           ((⟨2, 2, 2, fun y x z =>
            if y = 0 ∧ x = 0 then (if z = 1 then 200 else 100) else 0⟩ :
              Arr3).get y x (0 : Int).toNat : ℚ)
            + 1 / 1000000) = 0) :=
  C7_ndvi_formula _ 1 0 (by decide) (by decide) (by decide) (by decide)

/-- C8: requesting NIR band index = depth (one past the end) makes the
NIR band selection raise IndexError carrying the index and the axis
size; numpy never wraps or clamps a positive out-of-range index, and
the failure is just this call's error result. -/
theorem C8_band_index_bounds (cube : Arr3) (red_band_idx : Int) :
    calculate_ndvi cube (cube.d2 : Int) red_band_idx =
      Except.error (NdviError.indexError (cube.d2 : Int) cube.d2) := by
  unfold calculate_ndvi npBandIndex
  rw [if_neg (by omega), if_neg (by omega)]
  rfl

/-- C9 counterexample: `read_custom` on a 100-byte buffer, whose header
length 100 - 14,805,000 would be negative, signals no too-short-buffer
error: Python slicing silently clamps the header to length 0 and
decoding proceeds to `np.reshape`, which then fails with a plain
reshape size mismatch. -/
theorem C9_counterexample :
    ((100 : Int) - ((350 * 300 * 141 * 1 : Nat) : Int) < 0) ∧
    (headerOf (List.replicate 100 0) (350 * 300 * 141 * 1)).length = 0 ∧
    read_custom (List.replicate 100 0) =
      Except.error DecodeError.reshapeMismatch := by
  refine ⟨by norm_num, rfl, rfl⟩

/-- C9 corrected: the readers have no BufferTooShort guard. On a buffer
strictly shorter than the payload the header slice silently clamps to a
nonnegative length and decoding proceeds; the failure that surfaces is
numpy frombuffer or reshape error, never a dedicated too-short error.
The negative-header situation is indeed unreachable through size
dispatch: no such buffer resolves to the layout. -/
theorem C9_no_buffer_too_short_guard (s : LayoutSpec) (hs : s ∈ registry)
    (buffer : List Nat)
    (hshort : buffer.length
      < s.width * s.height * s.depth * s.sample_bytes) :
    (∃ e, decodeSpec s buffer = Except.error e ∧
      (e = DecodeError.frombufferSizeMismatch ∨
       e = DecodeError.reshapeMismatch)) ∧
    resolve buffer.length ≠ some s := by
  constructor
  · have hsb : s.sample_bytes = 1 ∨ s.sample_bytes = 2 := by
      fin_cases hs <;> simp [spec180X, spec170Xold, spec170Xnew,
        spec180XCL, specCustom]
    obtain ⟨e, he, hor⟩ := readCore_short s.width s.height s.depth
      s.sample_bytes s.needs_8bit_downcast buffer hsb hshort
    exact ⟨e, by unfold decodeSpec; rw [he, except_map_error], hor⟩
  · intro hres
    obtain ⟨hlen, hmem⟩ := resolve_eq_some buffer.length s hres
    have hpl : ∀ t ∈ registry,
        t.width * t.height * t.depth * t.sample_bytes
          ≤ t.total_file_size := by decide
    have hle := hpl s hs
    omega

/-- Witness for the corrected C9 at a concrete 100-byte buffer and the
custom layout. -/
theorem C9_no_buffer_too_short_guard_witness :
    (∃ e, decodeSpec specCustom (List.replicate 100 0) = Except.error e ∧
      (e = DecodeError.frombufferSizeMismatch ∨
       e = DecodeError.reshapeMismatch)) ∧
    resolve (List.replicate 100 0).length ≠ some specCustom :=
  C9_no_buffer_too_short_guard specCustom (by decide)
    (List.replicate 100 0)
    (by rw [List.length_replicate]; norm_num [specCustom])

/-- C10: a negative band index i with -depth ≤ i < 0, passed as either
the NIR or the Red selector, silently wraps: the call returns exactly
what it returns for index depth + i, and no error is signalled. -/
theorem C10_negative_band_wrap (cube : Arr3) (i r : Int)
    (hlo : -(cube.d2 : Int) ≤ i) (hhi : i < 0) :
    calculate_ndvi cube i r =
      calculate_ndvi cube ((cube.d2 : Int) + i) r ∧
    calculate_ndvi cube r i =
      calculate_ndvi cube r ((cube.d2 : Int) + i) := by
  have hb : npBandIndex i cube.d2
      = npBandIndex ((cube.d2 : Int) + i) cube.d2 := by
    unfold npBandIndex
    rw [if_neg (by omega), if_pos ⟨hlo, hhi⟩, if_pos (by omega)]
  unfold calculate_ndvi
  rw [hb]
  exact ⟨rfl, rfl⟩

/-- Witness for C10 at a 2-band cube and index -1 (wrapping to 1). -/
theorem C10_negative_band_wrap_witness :
    calculate_ndvi (⟨1, 1, 2, fun _ _ z => z⟩ : Arr3) (-1) 0 =
      calculate_ndvi (⟨1, 1, 2, fun _ _ z => z⟩ : Arr3)
        (((⟨1, 1, 2, fun _ _ z => z⟩ : Arr3).d2 : Int) + -1) 0 ∧
    calculate_ndvi (⟨1, 1, 2, fun _ _ z => z⟩ : Arr3) 0 (-1) =
      calculate_ndvi (⟨1, 1, 2, fun _ _ z => z⟩ : Arr3) 0
        (((⟨1, 1, 2, fun _ _ z => z⟩ : Arr3).d2 : Int) + -1) :=
  C10_negative_band_wrap _ (-1) 0 (by decide) (by decide)

end HyperNDVI
